import Mathlib

/-!
Shallow embedding of the `youtube-summary` repository
(`src/youtube_summary/transcript.py` and `src/youtube_summary/summarizer.py`)
together with proofs of the specification's claims about it.

Python `ValueError`s are modelled by the inductive `Err`, whose constructors
correspond to the spec's error taxonomy; each constructor carries the data that
appears in the Python exception's message.  External collaborators (the
captioning service and the three generation backends) are passed in as explicit
function parameters.  Environment variables are modelled as a lookup function
`Env : String → Option String`.
-/

set_option maxRecDepth 100000

namespace YoutubeSummary

/-- The error taxonomy of the spec; each constructor corresponds to one of the
Python `ValueError` message templates in the source. -/
inductive Err where
  /-- Message "Could not extract video ID from URL: {url}". -/
  | invalidReference (url : String)
  /-- Message "Could not retrieve transcript: {msg}". -/
  | transcriptUnavailable (msg : String)
  /-- Message "Unknown provider: {name}". -/
  | unknownProvider (name : String)
  /-- Message "… API key is required. Set {VAR} environment variable or pass explicitly.". -/
  | missingCredential (provider : String)
  deriving Repr, DecidableEq

instance {α β : Type} [DecidableEq α] [DecidableEq β] : DecidableEq (Except α β) := fun a b =>
  match a, b with
  | .ok x, .ok y =>
    if h : x = y then isTrue (by rw [h]) else isFalse (fun hc => h (Except.ok.inj hc))
  | .error x, .error y =>
    if h : x = y then isTrue (by rw [h]) else isFalse (fun hc => h (Except.error.inj hc))
  | .ok _, .error _ => isFalse (fun hc => Except.noConfusion hc)
  | .error _, .ok _ => isFalse (fun hc => Except.noConfusion hc)

/-- Environment variables: `os.getenv` is `env k`. -/
def Env : Type := String → Option String

/-- Python `a or b` for two optional strings: an empty string is falsy. -/
def pyOr (a b : Option String) : Option String :=
  match a with
  | some s => if s = "" then b else some s
  | none => b

/-- Python `a or b` where `b` is a plain (always present) string. -/
def pyOrStr (a : Option String) (b : String) : String :=
  match a with
  | some s => if s = "" then b else s
  | none => b

/-- Python truthiness of an `Optional[int]`: `None` and `0` are falsy. -/
def pyTruthyInt : Option Int → Bool
  | none => false
  | some n => n != 0

/-- Python `str.strip()`: remove leading and trailing whitespace. -/
def pyStrip (s : String) : String :=
  String.mk (((s.data.dropWhile Char.isWhitespace).reverse.dropWhile Char.isWhitespace).reverse)

/-- Python `needle in haystack` substring test, on character lists. -/
def containsSub (needle : List Char) : List Char → Bool
  | [] => needle.isEmpty
  | c :: rest => needle.isPrefixOf (c :: rest) || containsSub needle rest

/-- Python `needle in haystack` on strings. -/
def strContains (haystack needle : String) : Bool :=
  containsSub needle.data haystack.data

/-- Python `s.lower()` (character-wise lowering, as in CPython for the ASCII
provider names involved here). -/
def strToLower (s : String) : String :=
  String.mk (s.data.map Char.toLower)

/-! ### transcript.py -/

/-- The delimiter class `[^&\n?#]` of the capture group in `extract_video_id`. -/
def isDelim (c : Char) : Bool :=
  c = '&' || c = '\n' || c = '?' || c = '#'

/-- Greedy capture `[^&\n?#]+` (without the non-emptiness requirement, which
`tryAltsAt` checks). -/
def takeCapture (s : List Char) : List Char :=
  s.takeWhile (fun c => !isDelim c)

/-- Try the regex alternatives (literal prefixes, in order) at the current
position: the first alternative that is a prefix of `s` and is followed by at
least one non-delimiter character yields the greedy capture group. -/
def tryAltsAt (alts : List (List Char)) (s : List Char) : Option (List Char) :=
  match alts with
  | [] => none
  | a :: more =>
    if a.isPrefixOf s then
      let cap := takeCapture (s.drop a.length)
      if cap.isEmpty then tryAltsAt more s else some cap
    else tryAltsAt more s

/-- Embedding of `re.search`: scan positions left to right, return the first position's
match.  At each position the alternatives are tried in order. -/
def searchAux (alts : List (List Char)) : List Char → Option (List Char)
  | [] => none
  | c :: rest =>
    match tryAltsAt alts (c :: rest) with
    | some cap => some cap
    | none => searchAux alts rest

/-- The alternatives of the first pattern in `extract_video_id`:
`(?:youtube\.com/watch\?v=|youtu\.be/|youtube\.com/embed/|youtube\.com/v/|youtube\.com/\?v=)([^&\n?#]+)`. -/
def pattern1Alts : List (List Char) :=
  [ "youtube.com/watch?v=".data
  , "youtu.be/".data
  , "youtube.com/embed/".data
  , "youtube.com/v/".data
  , "youtube.com/?v=".data ]

/-- The alternatives of the second pattern: `youtube\.com/shorts/([^&\n?#]+)`. -/
def pattern2Alts : List (List Char) :=
  [ "youtube.com/shorts/".data ]

/-- Embedding of `extract_video_id(url)`: try the two patterns in order with `re.search`;
raise `ValueError` (InvalidReference) when neither matches. -/
def extract_video_id (url : String) : Except Err String :=
  match searchAux pattern1Alts url.data with
  | some cap => .ok (String.mk cap)
  | none =>
    match searchAux pattern2Alts url.data with
    | some cap => .ok (String.mk cap)
    | none => .error (.invalidReference url)

/-- One caption segment `{text, start, duration}` as returned by the captioning
service. -/
structure Segment where
  text : String
  start : Float
  duration : Float

/-- The external captioning service
`YouTubeTranscriptApi.get_transcript(video_id, languages)`: returns the
segments or fails with the underlying exception's message string. -/
def Service : Type := String → List String → Except String (List Segment)

/-- The `'youtube.com' in s or 'youtu.be' in s` test of `get_transcript`. -/
def hasYoutubeMarker (s : String) : Bool :=
  strContains s "youtube.com" || strContains s "youtu.be"

/-- Embedding of `get_transcript(video_id_or_url, languages)`: route URL-shaped inputs
through `extract_video_id` (whose error propagates unwrapped), treat other
inputs as literal identifiers, and wrap every service error as
`TranscriptUnavailable` with the cause's message. -/
def get_transcript (service : Service) (video_id_or_url : String)
    (languages : List String) : Except Err (List Segment) :=
  match
    (if hasYoutubeMarker video_id_or_url then
      extract_video_id video_id_or_url
    else
      .ok video_id_or_url) with
  | .error e => .error e
  | .ok video_id =>
    match service video_id languages with
    | .ok transcript => .ok transcript
    | .error e => .error (.transcriptUnavailable e)

/-- Embedding of `get_transcript_text`: joins segment texts with a single space. -/
def get_transcript_text (service : Service) (video_id_or_url : String)
    (languages : List String) : Except Err String :=
  match get_transcript service video_id_or_url languages with
  | .ok segments => .ok (String.intercalate " " (segments.map Segment.text))
  | .error e => .error e

/-! ### summarizer.py -/

/-- Options passed to `ollama.generate` (`temperature: 0.3, num_predict: 1000`). -/
structure GenOptions where
  temperature : Float
  num_predict : Nat

/-- The external backends: `ollama.generate` (model, prompt, options → generated
text), the chat-completion call (model, (role, content) messages, temperature,
max_tokens → first choice's message content) and the messages call (model,
system, (role, content) messages, max_tokens, temperature → first content
block's text). -/
structure Backends where
  ollamaGenerate : String → String → GenOptions → String
  openaiChat : String → List (String × String) → Float → Nat → String
  anthropicMessages : String → String → List (String × String) → Nat → Float → String

/-- State of `OllamaProvider`: holds the model name (default `"llama3.2"`). -/
structure OllamaProvider where
  model_name : String
  deriving Repr, DecidableEq

/-- The prompt built by `OllamaProvider.summarize`: fixed template, then the
length-constraint line only when `max_length` is truthy. -/
def OllamaProvider.buildPrompt (text : String) (max_length : Option Int) : String :=
  "Please provide a concise summary of the following transcript.\nFocus on the main points and key insights.\n\nTRANSCRIPT:\n"
    ++ text ++ "\n\nSUMMARY:"
    ++ (match max_length with
        | some n =>
          if n != 0 then "\n(Please keep the summary under " ++ toString n ++ " words)" else ""
        | none => "")

/-- Embedding of `OllamaProvider.summarize`: build the prompt, call `ollama.generate` with
temperature 0.3 and `num_predict` 1000, strip the response. -/
def OllamaProvider.summarize (p : OllamaProvider)
    (gen : String → String → GenOptions → String)
    (text : String) (max_length : Option Int) : String :=
  pyStrip (gen p.model_name (OllamaProvider.buildPrompt text max_length) ⟨0.3, 1000⟩)

/-- State of `OpenAIProvider`: model name plus the resolved (truthy) API key. -/
structure OpenAIProvider where
  model_name : String
  api_key : String
  deriving Repr, DecidableEq

/-- Embedding of `OpenAIProvider.__init__`: `self.api_key = api_key or os.getenv("OPENAI_API_KEY")`;
raises (MissingCredential) when the result is falsy, before any client use. -/
def OpenAIProvider.init (env : Env) (model_name : String) (api_key : Option String) :
    Except Err OpenAIProvider :=
  match pyOr api_key (env "OPENAI_API_KEY") with
  | some k => if k = "" then .error (.missingCredential "OpenAI") else .ok ⟨model_name, k⟩
  | none => .error (.missingCredential "OpenAI")

/-- The fixed system message of `OpenAIProvider.summarize`. -/
def openAISystemMessage : String :=
  "You are a helpful assistant that summarizes transcripts concisely."

/-- The user message built by `OpenAIProvider.summarize`: transcript, then the
length-constraint sentence only when `max_length` is truthy. -/
def OpenAIProvider.userMessage (text : String) (max_length : Option Int) : String :=
  "Please summarize the following transcript:\n\n" ++ text
    ++ (match max_length with
        | some n => if n != 0 then "\n\nKeep the summary under " ++ toString n ++ " words." else ""
        | none => "")

/-- Embedding of `OpenAIProvider.summarize`: chat-completion call with the system and user
messages, temperature 0.3, max_tokens 1000; strip the first choice's content. -/
def OpenAIProvider.summarize (p : OpenAIProvider)
    (chat : String → List (String × String) → Float → Nat → String)
    (text : String) (max_length : Option Int) : String :=
  pyStrip (chat p.model_name
    [("system", openAISystemMessage), ("user", OpenAIProvider.userMessage text max_length)]
    0.3 1000)

/-- State of `AnthropicProvider`: model name plus the resolved (truthy) API key. -/
structure AnthropicProvider where
  model_name : String
  api_key : String
  deriving Repr, DecidableEq

/-- Embedding of `AnthropicProvider.__init__`: same credential resolution as
`OpenAIProvider.init` but for `ANTHROPIC_API_KEY`. -/
def AnthropicProvider.init (env : Env) (model_name : String) (api_key : Option String) :
    Except Err AnthropicProvider :=
  match pyOr api_key (env "ANTHROPIC_API_KEY") with
  | some k => if k = "" then .error (.missingCredential "Anthropic") else .ok ⟨model_name, k⟩
  | none => .error (.missingCredential "Anthropic")

/-- The fixed system message of `AnthropicProvider.summarize`. -/
def anthropicSystemMessage : String :=
  "Summarize the provided transcript concisely, focusing on key points and insights."

/-- The user message built by `AnthropicProvider.summarize`. -/
def AnthropicProvider.userMessage (text : String) (max_length : Option Int) : String :=
  "Here is the transcript to summarize:\n\n" ++ text
    ++ (match max_length with
        | some n => if n != 0 then "\n\nKeep the summary under " ++ toString n ++ " words." else ""
        | none => "")

/-- Embedding of `AnthropicProvider.summarize`: messages call with separate system message,
max_tokens 1000, temperature 0.3; strip the first content block's text. -/
def AnthropicProvider.summarize (p : AnthropicProvider)
    (msgs : String → String → List (String × String) → Nat → Float → String)
    (text : String) (max_length : Option Int) : String :=
  pyStrip (msgs p.model_name anthropicSystemMessage
    [("user", AnthropicProvider.userMessage text max_length)] 1000 0.3)

/-- The three provider variants `get_provider` can return. -/
inductive Provider where
  | ollama (p : OllamaProvider)
  | openai (p : OpenAIProvider)
  | anthropic (p : AnthropicProvider)
  deriving Repr, DecidableEq

/-- Dispatch of the shared `summarize` capability to the resolved variant. -/
def Provider.summarize (p : Provider) (backends : Backends)
    (text : String) (max_length : Option Int) : String :=
  match p with
  | .ollama q => q.summarize backends.ollamaGenerate text max_length
  | .openai q => q.summarize backends.openaiChat text max_length
  | .anthropic q => q.summarize backends.anthropicMessages text max_length

/-- The `**kwargs` fields that `get_provider` reads (`kwargs.get(name)` is
`none` when absent). -/
structure Kwargs where
  model_name : Option String
  api_key : Option String

/-- Python `kwargs.get` returns `None` for both missing keys. -/
def Kwargs.empty : Kwargs := ⟨none, none⟩

/-- Embedding of `get_provider(provider_name, **kwargs)`:
`provider_name = provider_name or os.getenv("SUMMARY_PROVIDER", "ollama").lower()`
(note `.lower()` applies only to the environment/default branch), then exact
string dispatch on `"ollama"`, `"openai"`, `"anthropic"`, else
`ValueError` (UnknownProvider) carrying the resolved name. -/
def get_provider (env : Env) (provider_name : Option String) (kwargs : Kwargs) :
    Except Err Provider :=
  let name := pyOrStr provider_name (strToLower ((env "SUMMARY_PROVIDER").getD "ollama"))
  if name = "ollama" then
    .ok (.ollama ⟨pyOrStr kwargs.model_name ((env "OLLAMA_MODEL").getD "llama3.2")⟩)
  else if name = "openai" then
    (OpenAIProvider.init env
      (pyOrStr kwargs.model_name ((env "OPENAI_MODEL").getD "gpt-3.5-turbo"))
      (pyOr kwargs.api_key (env "OPENAI_API_KEY"))).map .openai
  else if name = "anthropic" then
    (AnthropicProvider.init env
      (pyOrStr kwargs.model_name ((env "ANTHROPIC_MODEL").getD "claude-3-haiku-20240307"))
      (pyOr kwargs.api_key (env "ANTHROPIC_API_KEY"))).map .anthropic
  else
    .error (.unknownProvider name)

/-- Embedding of `summarize_text(text, provider_name, max_length, **kwargs)`: resolve the
provider, then invoke its `summarize`. -/
def summarize_text (env : Env) (backends : Backends) (text : String)
    (provider_name : Option String) (max_length : Option Int) (kwargs : Kwargs) :
    Except Err String :=
  match get_provider env provider_name kwargs with
  | .ok p => .ok (p.summarize backends text max_length)
  | .error e => .error e

/-- An environment with no variables set. -/
def Env.empty : Env := fun _ => none

/-- A suffix that stops the greedy capture at its very first character: it is
empty or starts with one of `&`, newline, `?`, `#`. -/
def headStops : List Char → Bool
  | [] => true
  | d :: _ => isDelim d

/-! ### Helper lemmas -/

lemma stringExt {a b : String} (h : a.data = b.data) : a = b := by
  cases a; cases b; exact congrArg String.mk h

lemma str_append_empty (s : String) : s ++ "" = s :=
  stringExt (by rw [String.data_append, show ("" : String).data = [] from rfl, List.append_nil])

lemma containsSub_append_right (needle a b : List Char) (h : containsSub needle b = true) :
    containsSub needle (a ++ b) = true := by
  induction a with
  | nil => exact h
  | cons c rest ih => simp [containsSub, ih]

lemma append_ne_nil_left {a b : List Char} (h : a ≠ []) : a ++ b ≠ [] := by
  cases a with
  | nil => exact absurd rfl h
  | cons c r => simp

lemma isPrefixOf_append_self (l t : List Char) : List.isPrefixOf l (l ++ t) = true := by
  rw [List.isPrefixOf_iff_prefix]
  exact List.prefix_append l t

lemma not_isPrefixOf_of_take_ne (l m : List Char) (k : Nat) (hk : k ≤ m.length)
    (hkl : k ≤ l.length) (hne : ¬ l.take k = m.take k) (tail : List Char) :
    List.isPrefixOf l (m ++ tail) = false := by
  rw [Bool.eq_false_iff]
  intro h
  rw [List.isPrefixOf_iff_prefix] at h
  obtain ⟨t, ht⟩ := h
  apply hne
  calc l.take k = (l ++ t).take k := (List.take_append_of_le_length hkl).symm
    _ = (m ++ tail).take k := by rw [ht]
    _ = m.take k := List.take_append_of_le_length hk

lemma takeCapture_append {a b : List Char} (ha : ∀ c ∈ a, isDelim c = false)
    (hb : headStops b = true) : takeCapture (a ++ b) = a := by
  induction a with
  | nil =>
    cases b with
    | nil => rfl
    | cons d t =>
      simp only [headStops] at hb
      simp [takeCapture, hb]
  | cons c rest ih =>
    have hc : isDelim c = false := ha c (by simp)
    have hrest := ih (fun d hd => ha d (by simp [hd]))
    simp only [takeCapture] at hrest ⊢
    simp [hc, hrest]

lemma pattern1Alts_startY : ∀ a ∈ pattern1Alts, ∃ t, a = 'y' :: t := by
  intro a ha
  simp only [pattern1Alts, List.mem_cons, List.not_mem_nil, or_false] at ha
  rcases ha with rfl | rfl | rfl | rfl | rfl
  · exact ⟨"outube.com/watch?v=".data, by decide⟩
  · exact ⟨"outu.be/".data, by decide⟩
  · exact ⟨"outube.com/embed/".data, by decide⟩
  · exact ⟨"outube.com/v/".data, by decide⟩
  · exact ⟨"outube.com/?v=".data, by decide⟩

lemma pattern2Alts_startY : ∀ a ∈ pattern2Alts, ∃ t, a = 'y' :: t := by
  intro a ha
  simp only [pattern2Alts, List.mem_cons, List.not_mem_nil, or_false] at ha
  subst ha
  exact ⟨"outube.com/shorts/".data, by decide⟩

lemma tryAltsAt_none_of_ne_y {alts : List (List Char)}
    (halts : ∀ a ∈ alts, ∃ t, a = 'y' :: t) {c : Char} (hc : ¬ c = 'y') (s : List Char) :
    tryAltsAt alts (c :: s) = none := by
  induction alts with
  | nil => rfl
  | cons a more ih =>
    obtain ⟨t, rfl⟩ := halts a (List.mem_cons_self a more)
    have hyc : ('y' == c) = false := beq_eq_false_iff_ne.mpr (fun h => hc h.symm)
    have hpre : List.isPrefixOf ('y' :: t) (c :: s) = false := by
      simp [List.isPrefixOf, hyc]
    have hmore := ih (fun b hb => halts b (List.mem_cons_of_mem _ hb))
    simp [tryAltsAt, hpre, hmore]

lemma searchAux_cons_of_none {alts : List (List Char)} {c : Char} {s : List Char}
    (h : tryAltsAt alts (c :: s) = none) : searchAux alts (c :: s) = searchAux alts s := by
  simp [searchAux, h]

lemma searchAux_of_tryAltsAt {alts : List (List Char)} {s : List Char} {cap : List Char}
    (hs : s ≠ []) (h : tryAltsAt alts s = some cap) : searchAux alts s = some cap := by
  cases s with
  | nil => exact absurd rfl hs
  | cons c rest => simp [searchAux, h]

lemma searchAux_append_no_y {alts : List (List Char)}
    (halts : ∀ a ∈ alts, ∃ t, a = 'y' :: t) {pre : List Char}
    (hpre : ∀ c ∈ pre, ¬ c = 'y') (s : List Char) :
    searchAux alts (pre ++ s) = searchAux alts s := by
  induction pre with
  | nil => rfl
  | cons c rest ih =>
    rw [List.cons_append,
        searchAux_cons_of_none (tryAltsAt_none_of_ne_y halts (hpre c (by simp)) (rest ++ s))]
    exact ih (fun d hd => hpre d (by simp [hd]))

lemma searchAux_none_of_no_y {alts : List (List Char)}
    (halts : ∀ a ∈ alts, ∃ t, a = 'y' :: t) {s : List Char}
    (hs : ∀ c ∈ s, ¬ c = 'y') : searchAux alts s = none := by
  induction s with
  | nil => rfl
  | cons c rest ih =>
    rw [searchAux_cons_of_none (tryAltsAt_none_of_ne_y halts (hs c (by simp)) rest)]
    exact ih (fun d hd => hs d (by simp [hd]))

lemma tryAltsAt_p1_watch (tail : List Char) (h : (takeCapture tail).isEmpty = false) :
    tryAltsAt pattern1Alts ("youtube.com/watch?v=".data ++ tail) = some (takeCapture tail) := by
  have h1 := isPrefixOf_append_self "youtube.com/watch?v=".data tail
  simp only [pattern1Alts, tryAltsAt, h1, if_true]
  rw [List.drop_left]
  simp [h]

lemma tryAltsAt_p1_short_host (tail : List Char) (h : (takeCapture tail).isEmpty = false) :
    tryAltsAt pattern1Alts ("youtu.be/".data ++ tail) = some (takeCapture tail) := by
  have h1 := not_isPrefixOf_of_take_ne "youtube.com/watch?v=".data "youtu.be/".data 6
    (by decide) (by decide) (by decide) tail
  have h2 := isPrefixOf_append_self "youtu.be/".data tail
  simp only [pattern1Alts, tryAltsAt, h1, h2, if_true, Bool.false_eq_true, if_false]
  rw [List.drop_left]
  simp [h]

lemma tryAltsAt_p1_embed (tail : List Char) (h : (takeCapture tail).isEmpty = false) :
    tryAltsAt pattern1Alts ("youtube.com/embed/".data ++ tail) = some (takeCapture tail) := by
  have h1 := not_isPrefixOf_of_take_ne "youtube.com/watch?v=".data "youtube.com/embed/".data 13
    (by decide) (by decide) (by decide) tail
  have h2 := not_isPrefixOf_of_take_ne "youtu.be/".data "youtube.com/embed/".data 6
    (by decide) (by decide) (by decide) tail
  have h3 := isPrefixOf_append_self "youtube.com/embed/".data tail
  simp only [pattern1Alts, tryAltsAt, h1, h2, h3, if_true, Bool.false_eq_true, if_false]
  rw [List.drop_left]
  simp [h]

lemma tryAltsAt_p1_v (tail : List Char) (h : (takeCapture tail).isEmpty = false) :
    tryAltsAt pattern1Alts ("youtube.com/v/".data ++ tail) = some (takeCapture tail) := by
  have h1 := not_isPrefixOf_of_take_ne "youtube.com/watch?v=".data "youtube.com/v/".data 13
    (by decide) (by decide) (by decide) tail
  have h2 := not_isPrefixOf_of_take_ne "youtu.be/".data "youtube.com/v/".data 6
    (by decide) (by decide) (by decide) tail
  have h3 := not_isPrefixOf_of_take_ne "youtube.com/embed/".data "youtube.com/v/".data 13
    (by decide) (by decide) (by decide) tail
  have h4 := isPrefixOf_append_self "youtube.com/v/".data tail
  simp only [pattern1Alts, tryAltsAt, h1, h2, h3, h4, if_true, Bool.false_eq_true, if_false]
  rw [List.drop_left]
  simp [h]

lemma tryAltsAt_p1_shorts_none (tail : List Char) :
    tryAltsAt pattern1Alts ("youtube.com/shorts/".data ++ tail) = none := by
  have h1 := not_isPrefixOf_of_take_ne "youtube.com/watch?v=".data "youtube.com/shorts/".data 13
    (by decide) (by decide) (by decide) tail
  have h2 := not_isPrefixOf_of_take_ne "youtu.be/".data "youtube.com/shorts/".data 6
    (by decide) (by decide) (by decide) tail
  have h3 := not_isPrefixOf_of_take_ne "youtube.com/embed/".data "youtube.com/shorts/".data 13
    (by decide) (by decide) (by decide) tail
  have h4 := not_isPrefixOf_of_take_ne "youtube.com/v/".data "youtube.com/shorts/".data 13
    (by decide) (by decide) (by decide) tail
  have h5 := not_isPrefixOf_of_take_ne "youtube.com/?v=".data "youtube.com/shorts/".data 13
    (by decide) (by decide) (by decide) tail
  simp [pattern1Alts, tryAltsAt, h1, h2, h3, h4, h5]

lemma tryAltsAt_p2_shorts (tail : List Char) (h : (takeCapture tail).isEmpty = false) :
    tryAltsAt pattern2Alts ("youtube.com/shorts/".data ++ tail) = some (takeCapture tail) := by
  have h1 := isPrefixOf_append_self "youtube.com/shorts/".data tail
  simp only [pattern2Alts, tryAltsAt, h1, if_true]
  rw [List.drop_left]
  simp [h]

lemma extract_ok_of_p1 (preStr altStr id suffix : String)
    (hpre : ∀ c ∈ preStr.data, ¬ c = 'y')
    (halt : altStr.data ≠ [])
    (htry : ∀ tail : List Char, (takeCapture tail).isEmpty = false →
        tryAltsAt pattern1Alts (altStr.data ++ tail) = some (takeCapture tail))
    (hne : id.data ≠ []) (hchars : ∀ c ∈ id.data, isDelim c = false)
    (hsuf : headStops suffix.data = true) :
    extract_video_id (preStr ++ altStr ++ id ++ suffix) = .ok id := by
  have hcap : takeCapture (id.data ++ suffix.data) = id.data := takeCapture_append hchars hsuf
  have hempty : (takeCapture (id.data ++ suffix.data)).isEmpty = false := by
    rw [hcap]
    cases hd : id.data with
    | nil => exact absurd hd hne
    | cons c r => simp
  have hdata : (preStr ++ altStr ++ id ++ suffix).data
      = preStr.data ++ (altStr.data ++ (id.data ++ suffix.data)) := by
    simp [String.data_append, List.append_assoc]
  have hsearch : searchAux pattern1Alts (preStr ++ altStr ++ id ++ suffix).data
      = some id.data := by
    rw [hdata, searchAux_append_no_y pattern1Alts_startY hpre,
        searchAux_of_tryAltsAt (append_ne_nil_left halt) (htry _ hempty), hcap]
  unfold extract_video_id
  rw [hsearch]

lemma searchAux_p1_shorts_full {pre tail : List Char}
    (hpre : ∀ c ∈ pre, ¬ c = 'y') (htail : ∀ c ∈ tail, ¬ c = 'y') :
    searchAux pattern1Alts (pre ++ ("youtube.com/shorts/".data ++ tail)) = none := by
  rw [searchAux_append_no_y pattern1Alts_startY hpre]
  have hcons : "youtube.com/shorts/".data ++ tail
      = 'y' :: ("outube.com/shorts/".data ++ tail) := by
    rw [show "youtube.com/shorts/".data = 'y' :: "outube.com/shorts/".data from by decide]
    rfl
  rw [hcons, searchAux_cons_of_none (by rw [← hcons]; exact tryAltsAt_p1_shorts_none tail)]
  apply searchAux_none_of_no_y pattern1Alts_startY
  intro c hc
  rcases List.mem_append.mp hc with hc | hc
  · exact (by decide : ∀ c ∈ "outube.com/shorts/".data, ¬ c = 'y') c hc
  · exact htail c hc

lemma extract_ok_shorts (id suffix : String)
    (hne : id.data ≠ []) (hchars : ∀ c ∈ id.data, isDelim c = false)
    (hsuf : headStops suffix.data = true)
    (hidy : ∀ c ∈ id.data, ¬ c = 'y') (hsufy : ∀ c ∈ suffix.data, ¬ c = 'y') :
    extract_video_id ("https://www.youtube.com/shorts/" ++ id ++ suffix) = .ok id := by
  have hcap : takeCapture (id.data ++ suffix.data) = id.data := takeCapture_append hchars hsuf
  have hempty : (takeCapture (id.data ++ suffix.data)).isEmpty = false := by
    rw [hcap]
    cases hd : id.data with
    | nil => exact absurd hd hne
    | cons c r => simp
  have hAdata : ("https://www.youtube.com/shorts/" : String).data
      = "https://www.".data ++ "youtube.com/shorts/".data := by decide
  have hdata : ("https://www.youtube.com/shorts/" ++ id ++ suffix).data
      = "https://www.".data ++ ("youtube.com/shorts/".data ++ (id.data ++ suffix.data)) := by
    rw [String.data_append, String.data_append, hAdata]
    simp [List.append_assoc]
  have htaily : ∀ c ∈ id.data ++ suffix.data, ¬ c = 'y' := by
    intro c hc
    rcases List.mem_append.mp hc with hc | hc
    · exact hidy c hc
    · exact hsufy c hc
  have hp1 : searchAux pattern1Alts ("https://www.youtube.com/shorts/" ++ id ++ suffix).data
      = none := by
    rw [hdata]
    exact searchAux_p1_shorts_full (by decide) htaily
  have hp2 : searchAux pattern2Alts ("https://www.youtube.com/shorts/" ++ id ++ suffix).data
      = some id.data := by
    rw [hdata, searchAux_append_no_y pattern2Alts_startY (by decide),
        searchAux_of_tryAltsAt (append_ne_nil_left (by decide)) (tryAltsAt_p2_shorts _ hempty),
        hcap]
  unfold extract_video_id
  rw [hp1, hp2]

/-- C3: for every URL of a supported shape (`watch?v=`, short-link host
`youtu.be/`, `/embed/`, `/v/`, `/shorts/`, each followed by the identifier and
an optional trailing part that begins with `&`, `?`, `#` or a newline),
`extract_video_id` returns exactly the identifier — the first matching capture
group extending up to but excluding the next `&`, newline, `?` or `#` — and on
every string matching neither pattern it fails with `InvalidReference`.  The
identifier is taken non-empty and free of the four delimiter characters; for
the `/shorts/` shape (matched only by the second pattern) the identifier and
trailing part are additionally taken free of `'y'`, so that the first pattern
cannot fire inside them. -/
theorem c3_extract_video_id_shapes :
    (∀ id suffix : String, id.data ≠ [] → (∀ c ∈ id.data, isDelim c = false) →
      headStops suffix.data = true →
      extract_video_id ("https://www.youtube.com/watch?v=" ++ id ++ suffix) = .ok id)
  ∧ (∀ id suffix : String, id.data ≠ [] → (∀ c ∈ id.data, isDelim c = false) →
      headStops suffix.data = true →
      extract_video_id ("https://youtu.be/" ++ id ++ suffix) = .ok id)
  ∧ (∀ id suffix : String, id.data ≠ [] → (∀ c ∈ id.data, isDelim c = false) →
      headStops suffix.data = true →
      extract_video_id ("https://www.youtube.com/embed/" ++ id ++ suffix) = .ok id)
  ∧ (∀ id suffix : String, id.data ≠ [] → (∀ c ∈ id.data, isDelim c = false) →
      headStops suffix.data = true →
      extract_video_id ("https://www.youtube.com/v/" ++ id ++ suffix) = .ok id)
  ∧ (∀ id suffix : String, id.data ≠ [] → (∀ c ∈ id.data, isDelim c = false) →
      headStops suffix.data = true →
      (∀ c ∈ id.data, ¬ c = 'y') → (∀ c ∈ suffix.data, ¬ c = 'y') →
      extract_video_id ("https://www.youtube.com/shorts/" ++ id ++ suffix) = .ok id)
  ∧ (∀ url : String, searchAux pattern1Alts url.data = none →
      searchAux pattern2Alts url.data = none →
      extract_video_id url = .error (.invalidReference url)) := by
  refine ⟨?_, ?_, ?_, ?_, ?_, ?_⟩
  · intro id suffix hne hchars hsuf
    rw [show ("https://www.youtube.com/watch?v=" : String)
        = "https://www." ++ "youtube.com/watch?v=" from by decide]
    exact extract_ok_of_p1 _ _ id suffix (by decide) (by decide)
      tryAltsAt_p1_watch hne hchars hsuf
  · intro id suffix hne hchars hsuf
    rw [show ("https://youtu.be/" : String) = "https://" ++ "youtu.be/" from by decide]
    exact extract_ok_of_p1 _ _ id suffix (by decide) (by decide)
      tryAltsAt_p1_short_host hne hchars hsuf
  · intro id suffix hne hchars hsuf
    rw [show ("https://www.youtube.com/embed/" : String)
        = "https://www." ++ "youtube.com/embed/" from by decide]
    exact extract_ok_of_p1 _ _ id suffix (by decide) (by decide)
      tryAltsAt_p1_embed hne hchars hsuf
  · intro id suffix hne hchars hsuf
    rw [show ("https://www.youtube.com/v/" : String)
        = "https://www." ++ "youtube.com/v/" from by decide]
    exact extract_ok_of_p1 _ _ id suffix (by decide) (by decide)
      tryAltsAt_p1_v hne hchars hsuf
  · intro id suffix hne hchars hsuf hidy hsufy
    exact extract_ok_shorts id suffix hne hchars hsuf hidy hsufy
  · intro url h1 h2
    simp [extract_video_id, h1, h2]

/-- Witness for C3 at concrete URLs of every supported shape, plus one
non-matching string. -/
theorem c3_witness :
    extract_video_id ("https://www.youtube.com/watch?v=" ++ "dQw4w9WgXcQ" ++ "&feature=share")
      = .ok "dQw4w9WgXcQ"
  ∧ extract_video_id ("https://youtu.be/" ++ "dQw4w9WgXcQ" ++ "?t=10") = .ok "dQw4w9WgXcQ"
  ∧ extract_video_id ("https://www.youtube.com/embed/" ++ "dQw4w9WgXcQ" ++ "")
      = .ok "dQw4w9WgXcQ"
  ∧ extract_video_id ("https://www.youtube.com/v/" ++ "dQw4w9WgXcQ" ++ "") = .ok "dQw4w9WgXcQ"
  ∧ extract_video_id ("https://www.youtube.com/shorts/" ++ "abc123" ++ "?feature=x")
      = .ok "abc123"
  ∧ extract_video_id "https://example.com/xyz"
      = .error (.invalidReference "https://example.com/xyz") :=
  ⟨c3_extract_video_id_shapes.1 "dQw4w9WgXcQ" "&feature=share" (by decide) (by decide) (by decide),
   c3_extract_video_id_shapes.2.1 "dQw4w9WgXcQ" "?t=10" (by decide) (by decide) (by decide),
   c3_extract_video_id_shapes.2.2.1 "dQw4w9WgXcQ" "" (by decide) (by decide) (by decide),
   c3_extract_video_id_shapes.2.2.2.1 "dQw4w9WgXcQ" "" (by decide) (by decide) (by decide),
   c3_extract_video_id_shapes.2.2.2.2.1 "abc123" "?feature=x" (by decide) (by decide) (by decide)
     (by decide) (by decide),
   c3_extract_video_id_shapes.2.2.2.2.2 "https://example.com/xyz" (by decide) (by decide)⟩

/-- C2: `get_transcript` routes inputs containing a video-hosting domain marker
(`youtube.com` or `youtu.be`) through `extract_video_id` and treats every other
input as the literal identifier, and every error raised by the
captioning-service call surfaces as `TranscriptUnavailable` wrapping the
underlying cause's message. -/
theorem c2_get_transcript_routing :
    (∀ (service : Service) (input : String) (langs : List String) (vid : String)
        (segs : List Segment),
      hasYoutubeMarker input = true → extract_video_id input = .ok vid →
      service vid langs = .ok segs →
      get_transcript service input langs = .ok segs)
  ∧ (∀ (service : Service) (input : String) (langs : List String) (vid : String)
        (msg : String),
      hasYoutubeMarker input = true → extract_video_id input = .ok vid →
      service vid langs = .error msg →
      get_transcript service input langs = .error (.transcriptUnavailable msg))
  ∧ (∀ (service : Service) (input : String) (langs : List String) (segs : List Segment),
      hasYoutubeMarker input = false → service input langs = .ok segs →
      get_transcript service input langs = .ok segs)
  ∧ (∀ (service : Service) (input : String) (langs : List String) (msg : String),
      hasYoutubeMarker input = false → service input langs = .error msg →
      get_transcript service input langs = .error (.transcriptUnavailable msg)) := by
  refine ⟨?_, ?_, ?_, ?_⟩
  · intro service input langs vid segs hm he hs
    simp [get_transcript, hm, he, hs]
  · intro service input langs vid msg hm he hs
    simp [get_transcript, hm, he, hs]
  · intro service input langs segs hm hs
    simp [get_transcript, hm, hs]
  · intro service input langs msg hm hs
    simp [get_transcript, hm, hs]

/-- Witness for C2: a URL input routed through extraction whose service call
fails is wrapped as `TranscriptUnavailable`, and a bare identifier is passed to
the service literally. -/
theorem c2_witness :
    get_transcript (fun _ _ => .error "no captions") "https://youtu.be/abc" ["en"]
      = .error (.transcriptUnavailable "no captions")
  ∧ get_transcript (fun v _ => if v = "abc123" then .ok [] else .error "wrong id")
      "abc123" ["en"] = .ok [] :=
  ⟨c2_get_transcript_routing.2.1 (fun _ _ => .error "no captions") "https://youtu.be/abc"
      ["en"] "abc" "no captions" (by decide) (by decide) rfl,
   c2_get_transcript_routing.2.2.1 (fun v _ => if v = "abc123" then .ok [] else .error "wrong id")
      "abc123" ["en"] [] (by decide) (by simp)⟩

/-- C5: `get_transcript_text` returns exactly the segment texts joined with a
single space separator in order (`' '.join`), with no trimming or
normalization; zero segments yield the empty string, not an error. -/
theorem c5_resolve_text_joins :
    ∀ (service : Service) (vid : String) (langs : List String) (segs : List Segment),
      hasYoutubeMarker vid = false → service vid langs = .ok segs →
      (get_transcript_text service vid langs
          = .ok (String.intercalate " " (segs.map Segment.text))
        ∧ (segs = [] → get_transcript_text service vid langs = .ok "")) := by
  intro service vid langs segs hm hs
  have h : get_transcript_text service vid langs
      = .ok (String.intercalate " " (segs.map Segment.text)) := by
    simp [get_transcript_text, get_transcript, hm, hs]
  refine ⟨h, fun hnil => ?_⟩
  subst hnil
  exact h

/-- Witness for C5: the two-segment transcript joins to `"Hello world"` and the
empty transcript joins to `""`. -/
theorem c5_witness :
    get_transcript_text (fun _ _ => .ok [⟨"Hello", 0, 1⟩, ⟨"world", 1, 1⟩]) "abc123" ["en"]
      = .ok (String.intercalate " " (([⟨"Hello", 0, 1⟩, ⟨"world", 1, 1⟩] : List Segment).map
          Segment.text))
  ∧ get_transcript_text (fun _ _ => .ok ([] : List Segment)) "abc123" ["en"] = .ok "" :=
  ⟨(c5_resolve_text_joins (fun _ _ => .ok [⟨"Hello", 0, 1⟩, ⟨"world", 1, 1⟩]) "abc123" ["en"]
      [⟨"Hello", 0, 1⟩, ⟨"world", 1, 1⟩] (by decide) rfl).1,
   (c5_resolve_text_joins (fun _ _ => .ok ([] : List Segment)) "abc123" ["en"] []
      (by decide) rfl).2 rfl⟩

/-- C10: an input containing a domain marker that matches neither URL pattern
fails as `InvalidReference` (the extraction error), not as
`TranscriptUnavailable`, for every captioning service — extraction runs before
the guarded service call and its error is not wrapped. -/
theorem c10_invalid_reference_precedence :
    ∀ (service : Service) (input : String) (langs : List String),
      hasYoutubeMarker input = true →
      searchAux pattern1Alts input.data = none →
      searchAux pattern2Alts input.data = none →
      get_transcript service input langs = .error (.invalidReference input) := by
  intro service input langs hm h1 h2
  simp [get_transcript, hm, extract_video_id, h1, h2]

/-- Witness for C10: `"https://www.youtube.com/"` contains the marker but
matches no pattern; even a service that itself fails is never consulted and the
result is `InvalidReference`. -/
theorem c10_witness :
    get_transcript (fun _ _ => .error "service failure") "https://www.youtube.com/" ["en"]
      = .error (.invalidReference "https://www.youtube.com/") :=
  c10_invalid_reference_precedence (fun _ _ => .error "service failure")
    "https://www.youtube.com/" ["en"] (by decide) (by decide) (by decide)

/-- C1 counterexample: contrary to the claim that the selector comparison is
case-insensitive for every selector string, an explicit selector `"OLLAMA"` is
not lowercased (`.lower()` applies only to the environment/default branch) and
fails with `UnknownProvider "OLLAMA"` instead of resolving to the local-model
variant. -/
theorem c1_counterexample :
    get_provider Env.empty (some "OLLAMA") Kwargs.empty
      = .error (.unknownProvider "OLLAMA") := by
  decide

/-- C1 (amended): `get_provider` resolves the selector with precedence explicit
argument → `SUMMARY_PROVIDER` environment default → literal fallback `"ollama"`
(the local-model variant); the environment/default branch is lowercased before
comparison (hence case-insensitive there), but an explicit argument is compared
case-sensitively, so a non-lowercase explicit case variant of `"ollama"` fails
with `UnknownProvider`. -/
theorem c1_get_provider_precedence :
    (∀ (env : Env) (kwargs : Kwargs), env "SUMMARY_PROVIDER" = none →
      get_provider env none kwargs
        = .ok (.ollama ⟨pyOrStr kwargs.model_name ((env "OLLAMA_MODEL").getD "llama3.2")⟩))
  ∧ (∀ (env : Env) (kwargs : Kwargs) (s : String), env "SUMMARY_PROVIDER" = some s →
      strToLower s = "ollama" →
      get_provider env none kwargs
        = .ok (.ollama ⟨pyOrStr kwargs.model_name ((env "OLLAMA_MODEL").getD "llama3.2")⟩))
  ∧ (∀ (env : Env) (kwargs : Kwargs),
      get_provider env (some "ollama") kwargs
        = .ok (.ollama ⟨pyOrStr kwargs.model_name ((env "OLLAMA_MODEL").getD "llama3.2")⟩))
  ∧ (∀ (env : Env) (kwargs : Kwargs) (s : String), ¬ s = "" → strToLower s = "ollama" →
      ¬ s = "ollama" →
      get_provider env (some s) kwargs = .error (.unknownProvider s)) := by
  refine ⟨?_, ?_, ?_, ?_⟩
  · intro env kwargs h
    have hl : strToLower "ollama" = "ollama" := by decide
    simp [get_provider, pyOrStr, h, hl]
  · intro env kwargs s hs hlow
    simp [get_provider, pyOrStr, hs, hlow]
  · intro env kwargs
    simp [get_provider, pyOrStr]
  · intro env kwargs s hne hlow hno
    have h2 : ¬ s = "openai" := by
      intro h
      subst h
      exact absurd hlow (by decide)
    have h3 : ¬ s = "anthropic" := by
      intro h
      subst h
      exact absurd hlow (by decide)
    simp [get_provider, pyOrStr, hne, hno, h2, h3]

/-- Witness for C1: the fallback resolves to the local-model variant, the
environment default is case-insensitive, and an explicit `"OLLAMA"` is
rejected case-sensitively. -/
theorem c1_witness :
    get_provider Env.empty none Kwargs.empty
      = .ok (.ollama ⟨pyOrStr Kwargs.empty.model_name ((Env.empty "OLLAMA_MODEL").getD "llama3.2")⟩)
  ∧ get_provider (fun k => if k = "SUMMARY_PROVIDER" then some "OLLAMA" else none) none Kwargs.empty
      = .ok (.ollama ⟨pyOrStr Kwargs.empty.model_name
          (((fun k => if k = "SUMMARY_PROVIDER" then some "OLLAMA" else none) "OLLAMA_MODEL").getD
            "llama3.2")⟩)
  ∧ get_provider Env.empty (some "OLLAMA") Kwargs.empty = .error (.unknownProvider "OLLAMA") :=
  ⟨c1_get_provider_precedence.1 Env.empty Kwargs.empty rfl,
   c1_get_provider_precedence.2.1 (fun k => if k = "SUMMARY_PROVIDER" then some "OLLAMA" else none)
     Kwargs.empty "OLLAMA" rfl (by decide),
   c1_get_provider_precedence.2.2.2 Env.empty Kwargs.empty "OLLAMA" (by decide) (by decide)
     (by decide)⟩

/-- C4: constructing a hosted variant with no explicit credential and no
corresponding environment variable fails with `MissingCredential` at
construction time (the embedded constructor involves no backend call); with an
explicit non-empty credential it succeeds carrying exactly that credential for
every environment whatsoever, i.e. without consulting the environment. -/
theorem c4_missing_credential :
    (∀ (env : Env) (m : String), env "OPENAI_API_KEY" = none →
      OpenAIProvider.init env m none = .error (.missingCredential "OpenAI"))
  ∧ (∀ (env : Env) (m k : String), ¬ k = "" →
      OpenAIProvider.init env m (some k) = .ok ⟨m, k⟩)
  ∧ (∀ (env : Env) (m : String), env "ANTHROPIC_API_KEY" = none →
      AnthropicProvider.init env m none = .error (.missingCredential "Anthropic"))
  ∧ (∀ (env : Env) (m k : String), ¬ k = "" →
      AnthropicProvider.init env m (some k) = .ok ⟨m, k⟩) := by
  refine ⟨?_, ?_, ?_, ?_⟩
  · intro env m h
    simp [OpenAIProvider.init, pyOr, h]
  · intro env m k hk
    simp [OpenAIProvider.init, pyOr, hk]
  · intro env m h
    simp [AnthropicProvider.init, pyOr, h]
  · intro env m k hk
    simp [AnthropicProvider.init, pyOr, hk]

/-- Witness for C4 with the default model names, an empty environment and a
concrete explicit key. -/
theorem c4_witness :
    OpenAIProvider.init Env.empty "gpt-3.5-turbo" none = .error (.missingCredential "OpenAI")
  ∧ OpenAIProvider.init Env.empty "gpt-3.5-turbo" (some "sk-1") = .ok ⟨"gpt-3.5-turbo", "sk-1"⟩
  ∧ AnthropicProvider.init Env.empty "claude-3-haiku-20240307" none
      = .error (.missingCredential "Anthropic")
  ∧ AnthropicProvider.init Env.empty "claude-3-haiku-20240307" (some "sk-2")
      = .ok ⟨"claude-3-haiku-20240307", "sk-2"⟩ :=
  ⟨c4_missing_credential.1 Env.empty "gpt-3.5-turbo" rfl,
   c4_missing_credential.2.1 Env.empty "gpt-3.5-turbo" "sk-1" (by decide),
   c4_missing_credential.2.2.1 Env.empty "claude-3-haiku-20240307" rfl,
   c4_missing_credential.2.2.2 Env.empty "claude-3-haiku-20240307" "sk-2" (by decide)⟩

/-- C8: a resolved selector outside the closed set
`{"ollama", "openai", "anthropic"}` fails with `UnknownProvider` carrying the
resolved selector name and produces no provider value: verbatim for a
(non-empty) explicit argument, lowercased for an environment-variable
selector. -/
theorem c8_unknown_provider :
    (∀ (env : Env) (kwargs : Kwargs) (s : String),
      ¬ s = "" → ¬ s = "ollama" → ¬ s = "openai" → ¬ s = "anthropic" →
      get_provider env (some s) kwargs = .error (.unknownProvider s))
  ∧ (∀ (env : Env) (kwargs : Kwargs) (s : String), env "SUMMARY_PROVIDER" = some s →
      ¬ strToLower s = "ollama" → ¬ strToLower s = "openai" → ¬ strToLower s = "anthropic" →
      get_provider env none kwargs = .error (.unknownProvider (strToLower s))) := by
  constructor
  · intro env kwargs s h0 h1 h2 h3
    simp [get_provider, pyOrStr, h0, h1, h2, h3]
  · intro env kwargs s hs h1 h2 h3
    simp [get_provider, pyOrStr, hs, h1, h2, h3]

/-- Witness for C8: the spec's own example `"unknown-x"`, explicit and via the
environment. -/
theorem c8_witness :
    get_provider Env.empty (some "unknown-x") Kwargs.empty
      = .error (.unknownProvider "unknown-x")
  ∧ get_provider (fun k => if k = "SUMMARY_PROVIDER" then some "Unknown-X" else none) none
      Kwargs.empty = .error (.unknownProvider "unknown-x") :=
  ⟨c8_unknown_provider.1 Env.empty Kwargs.empty "unknown-x" (by decide) (by decide) (by decide)
     (by decide),
   c8_unknown_provider.2 (fun k => if k = "SUMMARY_PROVIDER" then some "Unknown-X" else none)
     Kwargs.empty "Unknown-X" rfl (by decide) (by decide) (by decide)⟩

/-- C6: for every text, with `max_length = 50` each variant's constructed
prompt/user message is the `max_length`-free prompt followed by a
length-constraint clause mentioning 50 (which therefore occurs in it as a
substring); with `max_length = None` the prompt is exactly the bare template
around the text, with no clause appended. -/
theorem c6_length_clause :
    ∀ text : String,
      (OllamaProvider.buildPrompt text (some 50)
          = OllamaProvider.buildPrompt text none
            ++ "\n(Please keep the summary under 50 words)"
        ∧ strContains (OllamaProvider.buildPrompt text (some 50)) "under 50 words" = true
        ∧ OllamaProvider.buildPrompt text none
          = "Please provide a concise summary of the following transcript.\nFocus on the main points and key insights.\n\nTRANSCRIPT:\n"
            ++ text ++ "\n\nSUMMARY:")
      ∧ (OpenAIProvider.userMessage text (some 50)
          = OpenAIProvider.userMessage text none ++ "\n\nKeep the summary under 50 words."
        ∧ strContains (OpenAIProvider.userMessage text (some 50)) "under 50 words" = true
        ∧ OpenAIProvider.userMessage text none
          = "Please summarize the following transcript:\n\n" ++ text)
      ∧ (AnthropicProvider.userMessage text (some 50)
          = AnthropicProvider.userMessage text none ++ "\n\nKeep the summary under 50 words."
        ∧ strContains (AnthropicProvider.userMessage text (some 50)) "under 50 words" = true
        ∧ AnthropicProvider.userMessage text none
          = "Here is the transcript to summarize:\n\n" ++ text) := by
  intro text
  have h1 : OllamaProvider.buildPrompt text (some 50)
      = OllamaProvider.buildPrompt text none
        ++ "\n(Please keep the summary under 50 words)" := by
    simp only [OllamaProvider.buildPrompt]
    rw [str_append_empty]
    congr 1
  have hc1 : strContains (OllamaProvider.buildPrompt text (some 50)) "under 50 words"
      = true := by
    rw [h1]
    simp only [strContains, String.data_append]
    exact containsSub_append_right _ _ _ (by decide)
  have hb1 : OllamaProvider.buildPrompt text none
      = "Please provide a concise summary of the following transcript.\nFocus on the main points and key insights.\n\nTRANSCRIPT:\n"
        ++ text ++ "\n\nSUMMARY:" := by
    simp only [OllamaProvider.buildPrompt]
    exact str_append_empty _
  have h2 : OpenAIProvider.userMessage text (some 50)
      = OpenAIProvider.userMessage text none ++ "\n\nKeep the summary under 50 words." := by
    simp only [OpenAIProvider.userMessage]
    rw [str_append_empty]
    congr 1
  have hc2 : strContains (OpenAIProvider.userMessage text (some 50)) "under 50 words"
      = true := by
    rw [h2]
    simp only [strContains, String.data_append]
    exact containsSub_append_right _ _ _ (by decide)
  have hb2 : OpenAIProvider.userMessage text none
      = "Please summarize the following transcript:\n\n" ++ text := by
    simp only [OpenAIProvider.userMessage]
    exact str_append_empty _
  have h3 : AnthropicProvider.userMessage text (some 50)
      = AnthropicProvider.userMessage text none ++ "\n\nKeep the summary under 50 words." := by
    simp only [AnthropicProvider.userMessage]
    rw [str_append_empty]
    congr 1
  have hc3 : strContains (AnthropicProvider.userMessage text (some 50)) "under 50 words"
      = true := by
    rw [h3]
    simp only [strContains, String.data_append]
    exact containsSub_append_right _ _ _ (by decide)
  have hb3 : AnthropicProvider.userMessage text none
      = "Here is the transcript to summarize:\n\n" ++ text := by
    simp only [AnthropicProvider.userMessage]
    exact str_append_empty _
  exact ⟨⟨h1, hc1, hb1⟩, ⟨h2, hc2, hb2⟩, ⟨h3, hc3, hb3⟩⟩

/-- C7: `summarize_text` is exactly `get_provider` composed with the resolved
variant's `summarize`; each variant returns the backend's generated text with
leading/trailing whitespace stripped; with the backends mocked to return `"X"`
and the local-model selector, `summarize_text` returns `"X"`. -/
theorem c7_summarize_text_composition :
    (∀ (env : Env) (backends : Backends) (text : String) (provider_name : Option String)
        (max_length : Option Int) (kwargs : Kwargs),
      summarize_text env backends text provider_name max_length kwargs
        = (get_provider env provider_name kwargs).map
            (fun p => p.summarize backends text max_length))
  ∧ (∀ (q : OllamaProvider) (backends : Backends) (text : String) (ml : Option Int),
      Provider.summarize (.ollama q) backends text ml
        = pyStrip (backends.ollamaGenerate q.model_name (OllamaProvider.buildPrompt text ml)
            ⟨0.3, 1000⟩))
  ∧ (∀ (q : OpenAIProvider) (backends : Backends) (text : String) (ml : Option Int),
      Provider.summarize (.openai q) backends text ml
        = pyStrip (backends.openaiChat q.model_name
            [("system", openAISystemMessage), ("user", OpenAIProvider.userMessage text ml)]
            0.3 1000))
  ∧ (∀ (q : AnthropicProvider) (backends : Backends) (text : String) (ml : Option Int),
      Provider.summarize (.anthropic q) backends text ml
        = pyStrip (backends.anthropicMessages q.model_name anthropicSystemMessage
            [("user", AnthropicProvider.userMessage text ml)] 1000 0.3))
  ∧ (∀ (env : Env) (text : String),
      summarize_text env ⟨fun _ _ _ => "X", fun _ _ _ _ => "X", fun _ _ _ _ _ => "X"⟩ text
        (some "ollama") none Kwargs.empty = .ok "X") := by
  refine ⟨?_, ?_, ?_, ?_, ?_⟩
  · intro env backends text pname ml kwargs
    unfold summarize_text
    cases h : get_provider env pname kwargs <;> simp [h, Except.map]
  · intro q backends text ml
    rfl
  · intro q backends text ml
    rfl
  · intro q backends text ml
    rfl
  · intro env text
    have hgp : get_provider env (some "ollama") Kwargs.empty
        = .ok (.ollama ⟨pyOrStr Kwargs.empty.model_name ((env "OLLAMA_MODEL").getD "llama3.2")⟩) := by
      simp [get_provider, pyOrStr]
    have hx : pyStrip "X" = "X" := by decide
    simp [summarize_text, hgp, Provider.summarize, OllamaProvider.summarize, hx]

/-- C9 (implicit claim): `max_length = 0` is falsy in Python, so every variant
builds exactly the same prompt/message for `max_length = 0` as for
`max_length = None` — no length-constraint clause at all. -/
theorem c9_max_length_zero :
    ∀ text : String,
      OllamaProvider.buildPrompt text (some 0) = OllamaProvider.buildPrompt text none
      ∧ OpenAIProvider.userMessage text (some 0) = OpenAIProvider.userMessage text none
      ∧ AnthropicProvider.userMessage text (some 0) = AnthropicProvider.userMessage text none :=
  fun _ => ⟨rfl, rfl, rfl⟩

end YoutubeSummary
